import Mathlib

/-!
Verification development for the MentraMaps turn-by-turn navigation core.

The definitions below are a shallow embedding of the `LiveNavigation` class
of `src/main.ts` (the variant backed by the Google Directions API, with the
beeping proximity tone), together with the geodesy helpers it uses and the
older `navigation.ts` variant of the class where the two diverge.

Modelling conventions:
- JavaScript numbers are modelled as real numbers; timestamps in
  milliseconds as integers.
- The mutable class instance becomes an explicit state record `NavState`;
  each method becomes a function from the state (plus arguments) to a new
  state and a result.
- Text-to-speech and audio playback are external fire-and-forget
  collaborators; the navigation core only decides when to call them and
  with which volume.  Those decisions are recorded as `NavEvent` values in
  the order the source would issue the calls.  The spoken sentences
  themselves (welcome message, step announcements) carry no navigation
  state and are not modelled.
-/

namespace MentraMaps

/-! ## Geodesy (from `calculateDistance` / `metersToFeet` in src/main.ts) -/

/-- JavaScript `Math.atan2`, on real arguments. -/
noncomputable def atan2 (y x : ℝ) : ℝ :=
  if 0 < x then Real.arctan (y / x)
  else if x < 0 then
    (if 0 ≤ y then Real.arctan (y / x) + Real.pi else Real.arctan (y / x) - Real.pi)
  else
    (if 0 < y then Real.pi / 2 else if y < 0 then -(Real.pi / 2) else 0)

/-- The intermediate value `a` of the haversine formula in
`LiveNavigation.calculateDistance`:
`sin(dLat/2)^2 + cos(lat1 deg) * cos(lat2 deg) * sin(dLng/2)^2`
with `dLat = (lat2-lat1)*pi/180` and `dLng = (lng2-lng1)*pi/180`. -/
noncomputable def haversineA (lat1 lng1 lat2 lng2 : ℝ) : ℝ :=
  Real.sin ((lat2 - lat1) * Real.pi / 180 / 2) * Real.sin ((lat2 - lat1) * Real.pi / 180 / 2)
  + Real.cos (lat1 * Real.pi / 180) * Real.cos (lat2 * Real.pi / 180)
    * (Real.sin ((lng2 - lng1) * Real.pi / 180 / 2) * Real.sin ((lng2 - lng1) * Real.pi / 180 / 2))

/-- `LiveNavigation.calculateDistance`: haversine great-circle distance in
meters, Earth radius `R = 6371` km, result `R * c * 1000` with
`c = 2 * atan2(sqrt a, sqrt (1 - a))`. -/
noncomputable def calculateDistance (lat1 lng1 lat2 lng2 : ℝ) : ℝ :=
  6371 * (2 * atan2 (Real.sqrt (haversineA lat1 lng1 lat2 lng2))
                    (Real.sqrt (1 - haversineA lat1 lng1 lat2 lng2))) * 1000

/-- `LiveNavigation.metersToFeet`. -/
noncomputable def metersToFeet (meters : ℝ) : ℝ := meters * 3.28084

lemma haversineA_symm (lat1 lng1 lat2 lng2 : ℝ) :
    haversineA lat1 lng1 lat2 lng2 = haversineA lat2 lng2 lat1 lng1 := by
  have key : ∀ u v : ℝ,
      Real.sin ((u - v) * Real.pi / 180 / 2) * Real.sin ((u - v) * Real.pi / 180 / 2)
        = Real.sin ((v - u) * Real.pi / 180 / 2) * Real.sin ((v - u) * Real.pi / 180 / 2) := by
    intro u v
    have h : (u - v) * Real.pi / 180 / 2 = -((v - u) * Real.pi / 180 / 2) := by ring
    rw [h, Real.sin_neg]
    ring
  unfold haversineA
  rw [key lat2 lat1, key lng2 lng1, mul_comm (Real.cos (lat1 * Real.pi / 180))]

lemma calculateDistance_symm (lat1 lng1 lat2 lng2 : ℝ) :
    calculateDistance lat1 lng1 lat2 lng2 = calculateDistance lat2 lng2 lat1 lng1 := by
  unfold calculateDistance
  rw [haversineA_symm]

lemma haversineA_self (lat lng : ℝ) : haversineA lat lng lat lng = 0 := by
  simp [haversineA]

lemma atan2_zero_one : atan2 0 1 = Real.arctan 0 := by
  simp [atan2]

lemma calculateDistance_self (lat lng : ℝ) : calculateDistance lat lng lat lng = 0 := by
  unfold calculateDistance
  rw [haversineA_self]
  norm_num [atan2_zero_one, Real.arctan_zero]

/-! ## Route data model (from the `Location` / `RouteStep` interfaces of src/main.ts) -/

/-- A latitude/longitude pair in decimal degrees. -/
structure Location where
  lat : ℝ
  lng : ℝ

/-- One leg of the route, as delivered by the directions provider.  The
`polyline` and `travel_mode` fields of the source interface carry no
navigation behavior and are omitted; `distance.text` and `duration.text`
are display strings and are likewise omitted. -/
structure RouteStep where
  distanceValue : ℝ
  durationValue : ℝ
  start_location : Location
  end_location : Location
  html_instructions : String
  maneuver : Option String

/-- Whether `needle` occurs at the very front of `hay`. -/
def leadsWith : List Char → List Char → Bool
  | [], _ => true
  | _ :: _, [] => false
  | c :: cs, d :: ds => c == d && leadsWith cs ds

/-- Whether `needle` occurs contiguously anywhere in `hay`. -/
def occursIn (needle : List Char) : List Char → Bool
  | [] => needle.isEmpty
  | d :: ds => leadsWith needle (d :: ds) || occursIn needle ds

/-- JavaScript `hay.toLowerCase()` on the character list of a string
(charwise ASCII lowering, which agrees with `toLowerCase` on the ASCII
instruction text involved). -/
def lowerChars (hay : String) : List Char :=
  hay.toList.map Char.toLower

/-- JavaScript `hay.includes(needle)`, with `hay` already lowercased. -/
def includesSub (hay : List Char) (needle : String) : Bool :=
  occursIn needle.toList hay

/-- `LiveNavigation.isTurnStep`: maneuver code is exactly `turn-left` or
`turn-right`, or the lowercased instruction text contains the phrase
`turn left` or `turn right`. -/
def isTurnStep (step : RouteStep) : Bool :=
  step.maneuver == some ("turn-left") || step.maneuver == some ("turn-right")
  || includesSub (lowerChars step.html_instructions) ("turn left")
  || includesSub (lowerChars step.html_instructions) ("turn right")

/-- `LiveNavigation.getTurnDirection`. -/
def getTurnDirection (step : RouteStep) : String :=
  if step.maneuver == some ("turn-left")
      || includesSub (lowerChars step.html_instructions) ("turn left") then "left"
  else if step.maneuver == some ("turn-right")
      || includesSub (lowerChars step.html_instructions) ("turn right") then "right"
  else "unknown"

/-! ## Navigation session state (fields of the `LiveNavigation` class) -/

/-- The per-step alert flags stored in `alertsShown[stepIndex]`. -/
structure AlertFlags where
  alert100Feet : Bool
  alert20Feet : Bool
deriving DecidableEq

/-- The two speech-alert thresholds, far = 100 feet, near = 20 feet. -/
inductive AlertKind where
  | far
  | near
deriving DecidableEq

/-- Projection of the flag that records whether the given threshold alert
has already fired. -/
def flagOf (kind : AlertKind) (f : AlertFlags) : Bool :=
  match kind with
  | AlertKind.far => f.alert100Feet
  | AlertKind.near => f.alert20Feet

/-- The mutable fields of the `LiveNavigation` class that the navigation
algorithm reads and writes.  `alertsShown` is modelled as a total map from
step index to flags (the source initialises one record per step on route
load and on step advancement). -/
structure NavState where
  routeSteps : List RouteStep
  currentStepIndex : ℕ
  isActive : Bool
  isRouteLoaded : Bool
  alertsShown : ℕ → AlertFlags
  lastBeepTime : ℤ

/-- `arrivalThreshold` (feet). -/
def arrivalThreshold : ℝ := 20

/-- `turnAlert100Feet` (feet). -/
def turnAlert100Feet : ℝ := 100

/-- `turnAlert20Feet` (feet). -/
def turnAlert20Feet : ℝ := 20

/-- `beepStartMeters`. -/
def beepStartMeters : ℝ := 200

/-- `beepPeriodMs` (milliseconds). -/
def beepPeriodMs : ℤ := 2000

/-- The volume clamp performed by `playBeep`:
`Math.max(0, Math.min(1, volume))`. -/
noncomputable def clampVolume (volume : ℝ) : ℝ := max 0 (min 1 volume)

/-- The audio-collaborator calls the navigation core decides to issue:
a proximity beep with its (clamped) volume, or a spoken turn alert for a
given threshold, step index and direction word. -/
inductive NavEvent where
  | beep (volume : ℝ)
  | alert (kind : AlertKind) (stepIndex : ℕ) (direction : String)

/-- `LiveNavigation.isRouteReady`. -/
def isRouteReady (s : NavState) : Bool :=
  s.isRouteLoaded && decide (0 < s.routeSteps.length)

/-- `LiveNavigation.stopNavigation`: deactivates and clears the beep
timestamp. -/
def stopNavigation (s : NavState) : NavState :=
  { s with isActive := false, lastBeepTime := 0 }

/-- Error taxonomy for operations that refuse to run; `startNavigation`
logs and returns without starting when the route is not ready, which is
modelled as this error value. -/
inductive NavError where
  | routeNotReady
deriving DecidableEq

/-- `LiveNavigation.startNavigation` of src/main.ts: refuses when
`isRouteReady()` is false, otherwise resets the step index and activates.
The welcome/first-instruction announcements are external speech calls and
are not modelled. -/
def startNavigation (s : NavState) : Except NavError NavState :=
  if isRouteReady s then
    Except.ok { s with currentStepIndex := 0, isActive := true }
  else
    Except.error NavError.routeNotReady

/-! ## Status snapshot (`getNavigationStatus`) -/

/-- The snapshot returned by `getNavigationStatus`.  The `stepInstructions`,
`progress` and `turnDirection` display strings are omitted (no claim and no
navigation decision depends on their content; `turnDirection` is re-derived
from the step by `getTurnDirection` where needed). -/
structure NavStatus where
  isActive : Bool
  currentStep : Option RouteStep
  distanceToStep : ℝ
  distanceInFeet : ℝ
  isStepCompleted : Bool
  isDestinationReached : Bool
  isTurnStep : Bool

/-- `LiveNavigation.getNavigationStatus`.  The source takes the early
inactive/finished return when `!isActive || currentStepIndex >= length`;
the guard below is the (equivalent) negation of that condition. -/
noncomputable def getNavigationStatus (s : NavState) (userLocation : Location) : NavStatus :=
  if h : s.isActive = true ∧ s.currentStepIndex < s.routeSteps.length then
    let currentStep := s.routeSteps.get ⟨s.currentStepIndex, h.2⟩
    let distanceToStep := calculateDistance userLocation.lat userLocation.lng
      currentStep.end_location.lat currentStep.end_location.lng
    { isActive := true
      currentStep := some currentStep
      distanceToStep := distanceToStep
      distanceInFeet := metersToFeet distanceToStep
      isStepCompleted := decide (metersToFeet distanceToStep ≤ arrivalThreshold)
      isDestinationReached := false
      isTurnStep := isTurnStep currentStep }
  else
    { isActive := false
      currentStep := none
      distanceToStep := 0
      distanceInFeet := 0
      isStepCompleted := false
      isDestinationReached := decide (s.routeSteps.length ≤ s.currentStepIndex)
      isTurnStep := false }

/-! ## Proximity alert engine (`checkTurnAlerts`) -/

/-- Overwrite the alert record of one step index, as the source does with
`this.alertsShown[i] = {...}` or by setting one field of it. -/
def setFlags (m : ℕ → AlertFlags) (i : ℕ) (f : AlertFlags) : ℕ → AlertFlags :=
  Function.update m i f

/-- `LiveNavigation.checkTurnAlerts`, called with the current wall-clock
time `now` (the source reads `Date.now()`).  Returns the updated state and
the audio calls issued, in order: optional beep, optional 100-feet alert,
optional 20-feet alert.  Early returns: step index out of range, or the
current step is not a turn step. -/
noncomputable def checkTurnAlerts (now : ℤ) (s : NavState) (userLocation : Location) :
    NavState × List NavEvent :=
  if h : s.currentStepIndex < s.routeSteps.length then
    let currentStep := s.routeSteps.get ⟨s.currentStepIndex, h⟩
    if isTurnStep currentStep then
      let distanceToStep := calculateDistance userLocation.lat userLocation.lng
        currentStep.end_location.lat currentStep.end_location.lng
      let distanceInFeet := metersToFeet distanceToStep
      let doBeep := distanceToStep ≤ beepStartMeters ∧ beepPeriodMs ≤ now - s.lastBeepTime
      let s1 := if doBeep then { s with lastBeepTime := now } else s
      let beepEvents := if doBeep
        then [NavEvent.beep (clampVolume (1 - distanceToStep / beepStartMeters))] else []
      let dir := getTurnDirection currentStep
      let fire100 := distanceInFeet ≤ turnAlert100Feet ∧ turnAlert20Feet < distanceInFeet
        ∧ (s1.alertsShown s.currentStepIndex).alert100Feet = false
      let rec100 := { s1.alertsShown s.currentStepIndex with alert100Feet := true }
      let s2 := if fire100
        then { s1 with alertsShown := setFlags s1.alertsShown s.currentStepIndex rec100 }
        else s1
      let ev100 := if fire100 then [NavEvent.alert AlertKind.far s.currentStepIndex dir] else []
      let fire20 := distanceInFeet ≤ turnAlert20Feet
        ∧ (s2.alertsShown s.currentStepIndex).alert20Feet = false
      let rec20 := { s2.alertsShown s.currentStepIndex with alert20Feet := true }
      let s3 := if fire20
        then { s2 with alertsShown := setFlags s2.alertsShown s.currentStepIndex rec20 }
        else s2
      let ev20 := if fire20 then [NavEvent.alert AlertKind.near s.currentStepIndex dir] else []
      (s3, beepEvents ++ ev100 ++ ev20)
    else (s, [])
  else (s, [])

/-! ## Per-fix update (`updateNavigation`) -/

/-- The completion flags of the record returned by `updateNavigation`.
The `nextInstructions` string and the embedded snapshot are omitted. -/
structure UpdateResult where
  stepCompleted : Bool
  destinationReached : Bool
deriving DecidableEq

/-- `LiveNavigation.updateNavigation`: the core per-fix operation.  Returns
the new state, the completion flags, and the audio calls issued.  The
announcements of the next step instruction and of arrival are external
speech calls and are not modelled as events. -/
noncomputable def updateNavigation (now : ℤ) (s : NavState) (userLocation : Location) :
    NavState × UpdateResult × List NavEvent :=
  let status := getNavigationStatus s userLocation
  if status.isActive = true then
    let cta := checkTurnAlerts now s userLocation
    if status.isStepCompleted = true then
      let s2 : NavState := { cta.1 with currentStepIndex := cta.1.currentStepIndex + 1 }
      let freshFlags : AlertFlags := { alert100Feet := false, alert20Feet := false }
      let s3 : NavState := if s2.currentStepIndex < s2.routeSteps.length
        then { s2 with alertsShown := setFlags s2.alertsShown s2.currentStepIndex freshFlags }
        else s2
      if s3.routeSteps.length ≤ s3.currentStepIndex then
        (stopNavigation s3, { stepCompleted := true, destinationReached := true }, cta.2)
      else
        (s3, { stepCompleted := true, destinationReached := false }, cta.2)
    else
      (cta.1, { stepCompleted := false, destinationReached := false }, cta.2)
  else
    (s, { stepCompleted := false, destinationReached := false }, [])

/-- Run a sequence of `updateNavigation` calls: each element of the list is
one incoming fix together with its wall-clock time. -/
noncomputable def runNav (s : NavState) : List (ℤ × Location) → NavState
  | [] => s
  | (now, loc) :: rest => runNav (updateNavigation now s loc).1 rest

/-- All audio calls issued over a sequence of `updateNavigation` calls. -/
noncomputable def navEvents (s : NavState) : List (ℤ × Location) → List NavEvent
  | [] => []
  | (now, loc) :: rest =>
      (updateNavigation now s loc).2.2 ++ navEvents (updateNavigation now s loc).1 rest

/-- The number of speech alerts for a given threshold kind and step index
in a list of audio events. -/
def countAlert (kind : AlertKind) (idx : ℕ) : List NavEvent → ℕ
  | [] => 0
  | NavEvent.alert k i _ :: rest =>
      (if k = kind ∧ i = idx then 1 else 0) + countAlert kind idx rest
  | NavEvent.beep _ :: rest => countAlert kind idx rest

/-! ## The older `navigation.ts` variant of the class -/

/-- State of the `LiveNavigation` class of src/navigation.ts, which loads
its route from a file in the constructor and has no alert engine. -/
structure NavJSState where
  routeSteps : List RouteStep
  currentStepIndex : ℕ
  isActive : Bool

/-- `startNavigation` of src/navigation.ts: activates unconditionally,
with no route-readiness guard of any kind. -/
def navJSStart (s : NavJSState) : NavJSState :=
  { s with currentStepIndex := 0, isActive := true }

/-! ## Structural lemmas about the alert engine -/

lemma cta_routeSteps (now : ℤ) (s : NavState) (loc : Location) :
    (checkTurnAlerts now s loc).1.routeSteps = s.routeSteps := by
  unfold checkTurnAlerts
  dsimp only
  repeat' split
  all_goals rfl

lemma cta_currentStepIndex (now : ℤ) (s : NavState) (loc : Location) :
    (checkTurnAlerts now s loc).1.currentStepIndex = s.currentStepIndex := by
  unfold checkTurnAlerts
  dsimp only
  repeat' split
  all_goals rfl

lemma cta_isActive (now : ℤ) (s : NavState) (loc : Location) :
    (checkTurnAlerts now s loc).1.isActive = s.isActive := by
  unfold checkTurnAlerts
  dsimp only
  repeat' split
  all_goals rfl

@[simp] lemma flagOf_far (f : AlertFlags) : flagOf AlertKind.far f = f.alert100Feet := rfl

@[simp] lemma flagOf_near (f : AlertFlags) : flagOf AlertKind.near f = f.alert20Feet := rfl

@[simp] lemma setFlags_apply (m : ℕ → AlertFlags) (i j : ℕ) (f : AlertFlags) :
    setFlags m i f j = if j = i then f else m j := by
  simp [setFlags, Function.update_apply]

@[simp] lemma countAlert_nil (kind : AlertKind) (idx : ℕ) : countAlert kind idx [] = 0 := rfl

@[simp] lemma countAlert_beep (kind : AlertKind) (idx : ℕ) (v : ℝ) (rest : List NavEvent) :
    countAlert kind idx (NavEvent.beep v :: rest) = countAlert kind idx rest := rfl

@[simp] lemma countAlert_alert (kind : AlertKind) (idx : ℕ) (k : AlertKind) (i : ℕ)
    (dir : String) (rest : List NavEvent) :
    countAlert kind idx (NavEvent.alert k i dir :: rest)
      = (if k = kind ∧ i = idx then 1 else 0) + countAlert kind idx rest := rfl

@[simp] lemma countAlert_append (kind : AlertKind) (idx : ℕ) (l1 l2 : List NavEvent) :
    countAlert kind idx (l1 ++ l2) = countAlert kind idx l1 + countAlert kind idx l2 := by
  induction l1 with
  | nil => simp
  | cons e rest ih =>
      cases e with
      | beep v => simpa using ih
      | alert k i dir =>
          simp [countAlert_alert, ih]
          omega

lemma cta_flag_mono (now : ℤ) (s : NavState) (loc : Location) (k : AlertKind) (i : ℕ)
    (h : flagOf k (s.alertsShown i) = true) :
    flagOf k ((checkTurnAlerts now s loc).1.alertsShown i) = true := by
  unfold checkTurnAlerts
  dsimp only
  repeat' split
  all_goals cases k <;> simp_all <;> split_ifs <;> simp_all

lemma cta_count_le_one (now : ℤ) (s : NavState) (loc : Location) (k : AlertKind) (i : ℕ) :
    countAlert k i (checkTurnAlerts now s loc).2 ≤ 1 := by
  unfold checkTurnAlerts
  dsimp only
  repeat' split
  all_goals cases k <;> simp_all <;> split_ifs <;> simp_all

lemma cta_count_pos_imp (now : ℤ) (s : NavState) (loc : Location) (k : AlertKind) (i : ℕ) :
    1 ≤ countAlert k i (checkTurnAlerts now s loc).2 →
      i = s.currentStepIndex ∧ flagOf k (s.alertsShown i) = false
        ∧ flagOf k ((checkTurnAlerts now s loc).1.alertsShown i) = true := by
  unfold checkTurnAlerts
  dsimp only
  repeat' split
  all_goals cases k <;> simp_all <;> split_ifs <;> try subst i
  all_goals simp_all

lemma cta_count_zero_of_flag (now : ℤ) (s : NavState) (loc : Location) (k : AlertKind) (i : ℕ)
    (h : flagOf k (s.alertsShown s.currentStepIndex) = true) :
    countAlert k i (checkTurnAlerts now s loc).2 = 0 := by
  by_contra hne
  obtain ⟨hi, hflag, -⟩ :=
    cta_count_pos_imp now s loc k i (Nat.one_le_iff_ne_zero.mpr hne)
  rw [hi] at hflag
  rw [hflag] at h
  exact Bool.false_ne_true h

lemma cta_count_zero_of_ne (now : ℤ) (s : NavState) (loc : Location) (k : AlertKind) (i : ℕ)
    (h : i ≠ s.currentStepIndex) :
    countAlert k i (checkTurnAlerts now s loc).2 = 0 := by
  by_contra hne
  obtain ⟨hi, -, -⟩ :=
    cta_count_pos_imp now s loc k i (Nat.one_le_iff_ne_zero.mpr hne)
  exact h hi

/-! ## Structural lemmas about the per-fix update -/

lemma upd_routeSteps (now : ℤ) (s : NavState) (loc : Location) :
    (updateNavigation now s loc).1.routeSteps = s.routeSteps := by
  unfold updateNavigation
  dsimp only
  repeat' split
  all_goals simp [stopNavigation, cta_routeSteps]

lemma upd_index_step (now : ℤ) (s : NavState) (loc : Location) :
    (updateNavigation now s loc).1.currentStepIndex = s.currentStepIndex
      ∨ (updateNavigation now s loc).1.currentStepIndex = s.currentStepIndex + 1 := by
  unfold updateNavigation
  dsimp only
  repeat' split
  all_goals simp [stopNavigation, cta_currentStepIndex]

lemma upd_index_mono (now : ℤ) (s : NavState) (loc : Location) :
    s.currentStepIndex ≤ (updateNavigation now s loc).1.currentStepIndex := by
  rcases upd_index_step now s loc with h | h <;> omega

lemma upd_count_le_cta (now : ℤ) (s : NavState) (loc : Location) (k : AlertKind) (i : ℕ) :
    countAlert k i (updateNavigation now s loc).2.2
      ≤ countAlert k i (checkTurnAlerts now s loc).2 := by
  unfold updateNavigation
  dsimp only
  repeat' split
  all_goals simp

lemma upd_count_le_one (now : ℤ) (s : NavState) (loc : Location) (k : AlertKind) (i : ℕ) :
    countAlert k i (updateNavigation now s loc).2.2 ≤ 1 :=
  le_trans (upd_count_le_cta now s loc k i) (cta_count_le_one now s loc k i)

lemma upd_flag_preserve (now : ℤ) (s : NavState) (loc : Location) (k : AlertKind) (i : ℕ)
    (h : flagOf k (s.alertsShown i) = true) :
    (updateNavigation now s loc).1.currentStepIndex = s.currentStepIndex + 1
      ∨ flagOf k ((updateNavigation now s loc).1.alertsShown i) = true := by
  unfold updateNavigation
  dsimp only
  repeat' split
  all_goals simp [stopNavigation, cta_currentStepIndex, cta_flag_mono, h]

lemma upd_count_pos_imp (now : ℤ) (s : NavState) (loc : Location) (k : AlertKind) (i : ℕ)
    (h : 1 ≤ countAlert k i (updateNavigation now s loc).2.2) :
    i = s.currentStepIndex
      ∧ ((updateNavigation now s loc).1.currentStepIndex = i
            ∧ flagOf k ((updateNavigation now s loc).1.alertsShown i) = true
          ∨ (updateNavigation now s loc).1.currentStepIndex = i + 1) := by
  have hcta : 1 ≤ countAlert k i (checkTurnAlerts now s loc).2 :=
    le_trans h (upd_count_le_cta now s loc k i)
  obtain ⟨hi, -, hpost⟩ := cta_count_pos_imp now s loc k i hcta
  refine ⟨hi, ?_⟩
  revert h
  unfold updateNavigation
  dsimp only
  repeat' split
  all_goals intro h
  all_goals simp_all [stopNavigation, cta_currentStepIndex]

/-- The blocking invariant for one (step index, threshold kind) pair: the
session has moved past the step, or it is at the step with the alert flag
already set.  Once it holds, that alert can never fire again. -/
def AlertBlocked (k : AlertKind) (idx : ℕ) (s : NavState) : Prop :=
  idx < s.currentStepIndex
    ∨ (s.currentStepIndex = idx ∧ flagOf k (s.alertsShown idx) = true)

lemma upd_count_zero_of_blocked (now : ℤ) (s : NavState) (loc : Location) (k : AlertKind)
    (idx : ℕ) (hQ : AlertBlocked k idx s) :
    countAlert k idx (updateNavigation now s loc).2.2 = 0 := by
  have hle := upd_count_le_cta now s loc k idx
  rcases hQ with hlt | ⟨heq, hflag⟩
  · have h0 := cta_count_zero_of_ne now s loc k idx (by omega)
    omega
  · rw [← heq] at hflag
    have h0 := cta_count_zero_of_flag now s loc k idx hflag
    omega

lemma upd_blocked_preserved (now : ℤ) (s : NavState) (loc : Location) (k : AlertKind)
    (idx : ℕ) (hQ : AlertBlocked k idx s) :
    AlertBlocked k idx (updateNavigation now s loc).1 := by
  rcases hQ with hlt | ⟨heq, hflag⟩
  · exact Or.inl (lt_of_lt_of_le hlt (upd_index_mono now s loc))
  · rcases upd_flag_preserve now s loc k idx (heq ▸ hflag) with hup | hup
    · exact Or.inl (by omega)
    · rcases upd_index_step now s loc with hst | hst
      · exact Or.inr ⟨by omega, hup⟩
      · exact Or.inl (by omega)

lemma upd_blocked_of_fire (now : ℤ) (s : NavState) (loc : Location) (k : AlertKind) (idx : ℕ)
    (h : 1 ≤ countAlert k idx (updateNavigation now s loc).2.2) :
    AlertBlocked k idx (updateNavigation now s loc).1 := by
  obtain ⟨hi, hpost⟩ := upd_count_pos_imp now s loc k idx h
  rcases hpost with ⟨hidx, hflag⟩ | hidx
  · exact Or.inr ⟨hidx, hflag⟩
  · exact Or.inl (by omega)

lemma navEvents_count_zero_of_blocked (k : AlertKind) (idx : ℕ) :
    ∀ (fixes : List (ℤ × Location)) (s : NavState), AlertBlocked k idx s →
      countAlert k idx (navEvents s fixes) = 0 := by
  intro fixes
  induction fixes with
  | nil => intro s _; rfl
  | cons p rest ih =>
      intro s hQ
      obtain ⟨now, loc⟩ := p
      simp only [navEvents, countAlert_append]
      rw [upd_count_zero_of_blocked now s loc k idx hQ,
        ih _ (upd_blocked_preserved now s loc k idx hQ)]

lemma runNav_index_mono (fixes : List (ℤ × Location)) :
    ∀ s : NavState, s.currentStepIndex ≤ (runNav s fixes).currentStepIndex := by
  induction fixes with
  | nil => intro s; exact le_refl _
  | cons p rest ih =>
      intro s
      obtain ⟨now, loc⟩ := p
      exact le_trans (upd_index_mono now s loc) (ih (updateNavigation now s loc).1)

/-! ## Claim theorems -/

/-- C1: for every route, step index and threshold kind (far 100 ft /
near 20 ft), across any sequence of `updateNavigation` calls from any
session state, the speech alert for that (step index, kind) pair is issued
at most once.  Because `currentStepIndex` never decreases, a step is
visited at most once per trace, so this is exactly the at-most-once-per-
visit guarantee enforced by the `alertsShown` flags. -/
theorem alert_fires_at_most_once (s : NavState) (fixes : List (ℤ × Location))
    (kind : AlertKind) (idx : ℕ) :
    countAlert kind idx (navEvents s fixes) ≤ 1 := by
  induction fixes generalizing s with
  | nil => simp [navEvents]
  | cons p rest ih =>
      obtain ⟨now, loc⟩ := p
      simp only [navEvents, countAlert_append]
      by_cases h : 1 ≤ countAlert kind idx (updateNavigation now s loc).2.2
      · have h1 := upd_count_le_one now s loc kind idx
        have h0 := navEvents_count_zero_of_blocked kind idx rest _
          (upd_blocked_of_fire now s loc kind idx h)
        omega
      · have h2 := ih (updateNavigation now s loc).1
        omega

/-- C2: a single `updateNavigation` call leaves `currentStepIndex`
unchanged or advances it by exactly one (never more, even when the fix is
inside the arrival band of several step ends, and never less), and over
any sequence of updates the index never decreases. -/
theorem currentStepIndex_single_step_monotone :
    (∀ (now : ℤ) (s : NavState) (loc : Location),
        (updateNavigation now s loc).1.currentStepIndex = s.currentStepIndex
          ∨ (updateNavigation now s loc).1.currentStepIndex = s.currentStepIndex + 1)
    ∧ ∀ (s : NavState) (fixes : List (ℤ × Location)),
        s.currentStepIndex ≤ (runNav s fixes).currentStepIndex :=
  ⟨fun now s loc => upd_index_step now s loc, fun s fixes => runNav_index_mono fixes s⟩

/-- C3: when an update on an active session finds the last step completed
(distance in feet to its end at or below the 20-foot arrival threshold),
that same update reports `destinationReached = true`, deactivates the
session, and leaves `currentStepIndex` equal to the number of steps. -/
theorem last_step_completion_reaches_destination (now : ℤ) (s : NavState) (loc : Location)
    (hact : s.isActive = true)
    (hidx : s.currentStepIndex < s.routeSteps.length)
    (hlast : s.currentStepIndex + 1 = s.routeSteps.length)
    (hdist : metersToFeet (calculateDistance loc.lat loc.lng
        (s.routeSteps.get ⟨s.currentStepIndex, hidx⟩).end_location.lat
        (s.routeSteps.get ⟨s.currentStepIndex, hidx⟩).end_location.lng) ≤ arrivalThreshold) :
    (updateNavigation now s loc).2.1.destinationReached = true
      ∧ (updateNavigation now s loc).1.isActive = false
      ∧ (updateNavigation now s loc).1.currentStepIndex = s.routeSteps.length := by
  have hA : (getNavigationStatus s loc).isActive = true := by
    unfold getNavigationStatus
    rw [dif_pos ⟨hact, hidx⟩]
  have hC : (getNavigationStatus s loc).isStepCompleted = true := by
    unfold getNavigationStatus
    rw [dif_pos ⟨hact, hidx⟩]
    dsimp only
    exact decide_eq_true hdist
  unfold updateNavigation
  dsimp only
  rw [hA, hC]
  simp only [if_true, eq_self_iff_true]
  simp [cta_currentStepIndex, cta_routeSteps, stopNavigation, ← hlast]

/-- Witness data: a one-step demo route ending at `demoEnd`, and an active
session positioned on that single step. -/
noncomputable def demoEnd : Location := { lat := 38, lng := -122 }

noncomputable def demoStep : RouteStep :=
  { distanceValue := 150
    durationValue := 60
    start_location := { lat := 37, lng := -121 }
    end_location := demoEnd
    html_instructions := "Head north"
    maneuver := none }

noncomputable def demoState : NavState :=
  { routeSteps := [demoStep]
    currentStepIndex := 0
    isActive := true
    isRouteLoaded := true
    alertsShown := fun _ => { alert100Feet := false, alert20Feet := false }
    lastBeepTime := 0 }

/-- Witness for C3: a fix exactly at the end of the only step of the demo
route completes it, reports arrival and deactivates the session. -/
theorem last_step_completion_witness :
    (updateNavigation 0 demoState demoEnd).2.1.destinationReached = true
      ∧ (updateNavigation 0 demoState demoEnd).1.isActive = false
      ∧ (updateNavigation 0 demoState demoEnd).1.currentStepIndex
          = demoState.routeSteps.length := by
  refine last_step_completion_reaches_destination 0 demoState demoEnd rfl
    (by simp [demoState]) (by simp [demoState]) ?_
  have hget : demoState.routeSteps.get ⟨demoState.currentStepIndex, by simp [demoState]⟩
      = demoStep := rfl
  rw [hget]
  show metersToFeet (calculateDistance demoEnd.lat demoEnd.lng demoEnd.lat demoEnd.lng)
    ≤ arrivalThreshold
  rw [calculateDistance_self]
  norm_num [metersToFeet, arrivalThreshold]

/-- C10: whenever the session is inactive or the step index has run past
the end of the route, `getNavigationStatus` reports zero distances
regardless of the position fix, and reports `isDestinationReached` exactly
when the index is at or past the number of steps; in particular a session
holding an empty route reports `isDestinationReached = true`. -/
theorem status_zero_distance_when_inactive_or_finished (s : NavState) (loc : Location)
    (h : s.isActive = false ∨ s.routeSteps.length ≤ s.currentStepIndex) :
    (getNavigationStatus s loc).distanceToStep = 0
      ∧ (getNavigationStatus s loc).distanceInFeet = 0
      ∧ ((getNavigationStatus s loc).isDestinationReached = true
          ↔ s.routeSteps.length ≤ s.currentStepIndex)
      ∧ (s.routeSteps = [] → (getNavigationStatus s loc).isDestinationReached = true) := by
  have hneg : ¬(s.isActive = true ∧ s.currentStepIndex < s.routeSteps.length) := by
    rcases h with h | h
    · rintro ⟨h1, -⟩
      rw [h] at h1
      exact Bool.false_ne_true h1
    · rintro ⟨-, h2⟩
      omega
  unfold getNavigationStatus
  rw [dif_neg hneg]
  refine ⟨rfl, rfl, ?_, ?_⟩
  · simp
  · intro he
    simp [he]

/-- Witness data: an inactive session around an empty route. -/
noncomputable def demoEmptyState : NavState :=
  { routeSteps := []
    currentStepIndex := 0
    isActive := false
    isRouteLoaded := false
    alertsShown := fun _ => { alert100Feet := false, alert20Feet := false }
    lastBeepTime := 0 }

/-- Witness for C10: the inactive empty-route session reports zero
distances and destination reached. -/
theorem status_zero_distance_witness :
    (getNavigationStatus demoEmptyState demoEnd).distanceToStep = 0
      ∧ (getNavigationStatus demoEmptyState demoEnd).distanceInFeet = 0
      ∧ ((getNavigationStatus demoEmptyState demoEnd).isDestinationReached = true
          ↔ demoEmptyState.routeSteps.length ≤ demoEmptyState.currentStepIndex)
      ∧ (demoEmptyState.routeSteps = []
          → (getNavigationStatus demoEmptyState demoEnd).isDestinationReached = true) :=
  status_zero_distance_when_inactive_or_finished demoEmptyState demoEnd (Or.inl rfl)

/-- C8: the haversine distance of the source is symmetric in its two
coordinates, and the distance from a coordinate to itself is exactly zero
(the real-valued model computes 0, which is within any floating
tolerance). -/
theorem haversine_symmetric_and_zero_on_equal :
    (∀ lat1 lng1 lat2 lng2 : ℝ,
        calculateDistance lat1 lng1 lat2 lng2 = calculateDistance lat2 lng2 lat1 lng1)
    ∧ ∀ lat lng : ℝ, calculateDistance lat lng lat lng = 0 :=
  ⟨calculateDistance_symm, calculateDistance_self⟩

/-- Modelled from the spec: a latitude/longitude pair is valid when both
components are inside the usual ranges.  (The NaN case of the spec has no
counterpart in the real-number model; out-of-range values represent the
invalid inputs.)  No definition in the source performs this check. -/
def isValidCoordinate (lat lng : ℝ) : Prop :=
  -90 ≤ lat ∧ lat ≤ 90 ∧ -180 ≤ lng ∧ lng ≤ 180

/-- Counterexample for C9: the claim says the distance computation fails
with an `InvalidCoordinate` error on an out-of-range coordinate; instead
`calculateDistance` accepts latitude 200 and silently returns an ordinary
number (0 for the self-distance).  No error path exists in the code. -/
theorem invalid_coordinate_not_rejected :
    ¬ isValidCoordinate 200 0 ∧ calculateDistance 200 0 200 0 = 0 :=
  ⟨by norm_num [isValidCoordinate], calculateDistance_self 200 0⟩

/-- C9 (amended): `calculateDistance` performs no input validation; an
invalid coordinate is processed by the same total formula as a valid one
(its self-distance is 0 and symmetry still holds), rather than failing
with an `InvalidCoordinate` error. -/
theorem distance_no_input_validation (lat lng : ℝ) (h : ¬ isValidCoordinate lat lng) :
    calculateDistance lat lng lat lng = 0
      ∧ ∀ lat2 lng2 : ℝ,
          calculateDistance lat lng lat2 lng2 = calculateDistance lat2 lng2 lat lng :=
  ⟨calculateDistance_self lat lng, fun lat2 lng2 => calculateDistance_symm lat lng lat2 lng2⟩

/-- Witness for the amended C9 at the invalid coordinate (200, 0). -/
theorem distance_no_input_validation_witness :
    ¬ isValidCoordinate 200 0
      ∧ (calculateDistance 200 0 200 0 = 0
          ∧ ∀ lat2 lng2 : ℝ,
              calculateDistance 200 0 lat2 lng2 = calculateDistance lat2 lng2 200 0) :=
  ⟨by norm_num [isValidCoordinate],
    distance_no_input_validation 200 0 (by norm_num [isValidCoordinate])⟩

/-- Witness data: the empty-route session of the `navigation.ts` class. -/
def navJSEmpty : NavJSState :=
  { routeSteps := [], currentStepIndex := 0, isActive := false }

/-- Counterexample for C4: in the `navigation.ts` variant of
`LiveNavigation` (cited by the claim), `startNavigation` has no readiness
guard at all: on a session whose route has zero steps it still transitions
to active, so "never transitions the session to Active" fails there. -/
theorem start_unguarded_on_navigation_ts :
    navJSEmpty.routeSteps.length = 0 ∧ (navJSStart navJSEmpty).isActive = true :=
  ⟨rfl, rfl⟩

/-- C4 (amended): in the main module (`src/main.ts`), `startNavigation`
on a session whose route is not ready fails (modelled as a
`routeNotReady` error) and does not produce an active session, while on a
ready route it activates the session at step 0.  The `navigation.ts`
variant of the class activates unconditionally. -/
theorem start_requires_route_ready (s : NavState) :
    (isRouteReady s = false → startNavigation s = Except.error NavError.routeNotReady)
    ∧ (isRouteReady s = true →
        startNavigation s
          = Except.ok { s with currentStepIndex := 0, isActive := true }) := by
  constructor <;> intro h <;> simp [startNavigation, h]

/-- Witness for the amended C4: the not-ready demo session is refused and
the ready demo session is activated. -/
theorem start_requires_route_ready_witness :
    startNavigation demoEmptyState = Except.error NavError.routeNotReady
      ∧ startNavigation demoState
          = Except.ok { demoState with currentStepIndex := 0, isActive := true } :=
  ⟨(start_requires_route_ready demoEmptyState).1 (by simp [isRouteReady, demoEmptyState]),
    (start_requires_route_ready demoState).2 (by simp [isRouteReady, demoState])⟩

/-- The maneuver classification of the spec data model. -/
inductive Maneuver where
  | left
  | right
  | straight
  | uturn
  | unknown
deriving DecidableEq

/-- Modelled from the spec: the route model classifies the maneuver of a
step from the explicit maneuver code first (the Google code words
`turn-left`, `turn-right`, `uturn-left`, `uturn-right`, `straight`),
falling back to case-insensitive keyword search for `turn left` /
`turn right` in the instruction text when no code is present; a step whose
classification cannot be determined is `unknown`. -/
def specManeuver (step : RouteStep) : Maneuver :=
  match step.maneuver with
  | some m =>
      if m = "turn-left" then Maneuver.left
      else if m = "turn-right" then Maneuver.right
      else if m = "uturn-left" ∨ m = "uturn-right" then Maneuver.uturn
      else if m = "straight" then Maneuver.straight
      else Maneuver.unknown
  | none =>
      if includesSub (lowerChars step.html_instructions) ("turn left") then Maneuver.left
      else if includesSub (lowerChars step.html_instructions) ("turn right") then Maneuver.right
      else Maneuver.unknown

/-- Counterexample data: a u-turn step as delivered by the provider. -/
noncomputable def uturnStep : RouteStep :=
  { distanceValue := 80
    durationValue := 30
    start_location := { lat := 37, lng := -121 }
    end_location := demoEnd
    html_instructions := "Make a U-turn onto Main St"
    maneuver := some ("uturn-left") }

/-- Counterexample for C5: a step classified u-turn (explicit code
`uturn-left`) is not recognised by `isTurnStep`, so u-turn steps are never
turn-alerted, contradicting "isTurn() holds exactly when the maneuver
classification is left, right, or u-turn". -/
theorem isTurnStep_misses_uturn :
    specManeuver uturnStep = Maneuver.uturn ∧ isTurnStep uturnStep = false := by
  constructor <;> decide

/-- C5 (amended): `isTurnStep` holds exactly when the maneuver code is
`turn-left` or `turn-right` or the lowercased instruction text contains
`turn left` or `turn right`.  Consequently every step the spec classifies
left or right is turn-alerted; but the predicate is not the
{left, right, u-turn} set of the claim: u-turn codes are not alerted, and
a step with a `straight` (or u-turn) code whose text happens to contain a
turn phrase is alerted. -/
theorem isTurnStep_characterization (step : RouteStep) :
    ((specManeuver step = Maneuver.left ∨ specManeuver step = Maneuver.right)
        → isTurnStep step = true)
    ∧ (isTurnStep step = true
        ↔ (step.maneuver = some ("turn-left") ∨ step.maneuver = some ("turn-right")
            ∨ includesSub (lowerChars step.html_instructions) ("turn left") = true
            ∨ includesSub (lowerChars step.html_instructions) ("turn right") = true)) := by
  constructor
  · intro h
    simp only [isTurnStep, Bool.or_eq_true, beq_iff_eq]
    cases hm : step.maneuver with
    | some m =>
        simp only [specManeuver, hm] at h
        rcases h with h | h <;> split_ifs at h with h1 h2 h3 h4 <;> simp_all
    | none =>
        simp only [specManeuver, hm] at h
        rcases h with h | h <;> split_ifs at h with h1 h2 <;> simp_all
  · simp only [isTurnStep, Bool.or_eq_true, beq_iff_eq]
    tauto

/-- Witness data: an ordinary left-turn step. -/
noncomputable def leftStep : RouteStep :=
  { distanceValue := 120
    durationValue := 45
    start_location := { lat := 37, lng := -121 }
    end_location := demoEnd
    html_instructions := "Turn left onto A St"
    maneuver := some ("turn-left") }

/-- Witness for the amended C5 at a left-classified step. -/
theorem isTurnStep_characterization_witness :
    specManeuver leftStep = Maneuver.left ∧ isTurnStep leftStep = true :=
  ⟨by decide, (isTurnStep_characterization leftStep).1 (Or.inl (by decide))⟩

/-! ## Lemmas about the beep and the speech thresholds -/

lemma status_active_of (s : NavState) (loc : Location) (hact : s.isActive = true)
    (hidx : s.currentStepIndex < s.routeSteps.length) :
    (getNavigationStatus s loc).isActive = true := by
  unfold getNavigationStatus
  rw [dif_pos ⟨hact, hidx⟩]

lemma upd_events_eq_cta (now : ℤ) (s : NavState) (loc : Location)
    (h : (getNavigationStatus s loc).isActive = true) :
    (updateNavigation now s loc).2.2 = (checkTurnAlerts now s loc).2 := by
  unfold updateNavigation
  dsimp only
  rw [h]
  simp only [if_true, eq_self_iff_true]
  repeat' split
  all_goals rfl

lemma upd_events_nil_inactive (now : ℤ) (s : NavState) (loc : Location)
    (h : ¬ (getNavigationStatus s loc).isActive = true) :
    (updateNavigation now s loc).2.2 = [] := by
  unfold updateNavigation
  dsimp only
  rw [if_neg h]

lemma cta_nonturn (now : ℤ) (s : NavState) (loc : Location)
    (hidx : s.currentStepIndex < s.routeSteps.length)
    (hnt : ¬ isTurnStep (s.routeSteps.get ⟨s.currentStepIndex, hidx⟩) = true) :
    checkTurnAlerts now s loc = (s, []) := by
  unfold checkTurnAlerts
  dsimp only
  rw [dif_pos hidx, if_neg hnt]

lemma cta_beep_fires (now : ℤ) (s : NavState) (loc : Location)
    (hidx : s.currentStepIndex < s.routeSteps.length)
    (hturn : isTurnStep (s.routeSteps.get ⟨s.currentStepIndex, hidx⟩) = true)
    (hd : calculateDistance loc.lat loc.lng
        (s.routeSteps.get ⟨s.currentStepIndex, hidx⟩).end_location.lat
        (s.routeSteps.get ⟨s.currentStepIndex, hidx⟩).end_location.lng ≤ beepStartMeters)
    (ht : beepPeriodMs ≤ now - s.lastBeepTime) :
    NavEvent.beep (clampVolume (1 - calculateDistance loc.lat loc.lng
        (s.routeSteps.get ⟨s.currentStepIndex, hidx⟩).end_location.lat
        (s.routeSteps.get ⟨s.currentStepIndex, hidx⟩).end_location.lng / beepStartMeters))
      ∈ (checkTurnAlerts now s loc).2 := by
  unfold checkTurnAlerts
  dsimp only
  rw [dif_pos hidx, if_pos hturn]
  dsimp only
  repeat' split
  all_goals simp_all

lemma cta_no_beep_rate_limited (now : ℤ) (s : NavState) (loc : Location)
    (ht : now - s.lastBeepTime < beepPeriodMs) :
    ∀ v, NavEvent.beep v ∉ (checkTurnAlerts now s loc).2 := by
  intro v
  unfold checkTurnAlerts
  dsimp only
  repeat' split
  all_goals simp_all
  all_goals omega

lemma cta_beep_sets_time (now : ℤ) (s : NavState) (loc : Location) :
    ∀ v, NavEvent.beep v ∈ (checkTurnAlerts now s loc).2
      → (checkTurnAlerts now s loc).1.lastBeepTime = now := by
  intro v
  unfold checkTurnAlerts
  dsimp only
  repeat' split
  all_goals simp_all

lemma cta_near_fires (now : ℤ) (s : NavState) (loc : Location)
    (hidx : s.currentStepIndex < s.routeSteps.length)
    (hturn : isTurnStep (s.routeSteps.get ⟨s.currentStepIndex, hidx⟩) = true)
    (hfeet : metersToFeet (calculateDistance loc.lat loc.lng
        (s.routeSteps.get ⟨s.currentStepIndex, hidx⟩).end_location.lat
        (s.routeSteps.get ⟨s.currentStepIndex, hidx⟩).end_location.lng) ≤ turnAlert20Feet)
    (hflag : (s.alertsShown s.currentStepIndex).alert20Feet = false) :
    NavEvent.alert AlertKind.near s.currentStepIndex
        (getTurnDirection (s.routeSteps.get ⟨s.currentStepIndex, hidx⟩))
      ∈ (checkTurnAlerts now s loc).2 := by
  unfold checkTurnAlerts
  dsimp only
  rw [dif_pos hidx, if_pos hturn]
  dsimp only
  repeat' split
  all_goals simp_all

lemma cta_far_band (now : ℤ) (s : NavState) (loc : Location) (dir : String)
    (hidx : s.currentStepIndex < s.routeSteps.length)
    (hmem : NavEvent.alert AlertKind.far s.currentStepIndex dir
      ∈ (checkTurnAlerts now s loc).2) :
    metersToFeet (calculateDistance loc.lat loc.lng
        (s.routeSteps.get ⟨s.currentStepIndex, hidx⟩).end_location.lat
        (s.routeSteps.get ⟨s.currentStepIndex, hidx⟩).end_location.lng) ≤ turnAlert100Feet
      ∧ turnAlert20Feet < metersToFeet (calculateDistance loc.lat loc.lng
        (s.routeSteps.get ⟨s.currentStepIndex, hidx⟩).end_location.lat
        (s.routeSteps.get ⟨s.currentStepIndex, hidx⟩).end_location.lng) := by
  revert hmem
  unfold checkTurnAlerts
  dsimp only
  rw [dif_pos hidx]
  repeat' split
  all_goals intro hmem
  all_goals simp_all

/-! ## Volume lemmas for the clamped beep volume -/

lemma clampVolume_nonneg (v : ℝ) : 0 ≤ clampVolume v := le_max_left 0 _

lemma clampVolume_le_one (v : ℝ) : clampVolume v ≤ 1 :=
  max_le (by norm_num) (min_le_left 1 v)

lemma clampVolume_anti (d1 d2 : ℝ) (h : d1 ≤ d2) :
    clampVolume (1 - d2 / beepStartMeters) ≤ clampVolume (1 - d1 / beepStartMeters) := by
  unfold clampVolume
  have hdiv : d1 / beepStartMeters ≤ d2 / beepStartMeters := by
    apply div_le_div_of_nonneg_right h
    norm_num [beepStartMeters]
  exact max_le_max le_rfl (min_le_min le_rfl (by linarith))

lemma clampVolume_zero_far (d : ℝ) (h : beepStartMeters ≤ d) :
    clampVolume (1 - d / beepStartMeters) = 0 := by
  unfold clampVolume
  have h1 : 1 - d / beepStartMeters ≤ 0 := by
    have hone : (1 : ℝ) ≤ d / beepStartMeters := by
      rw [le_div_iff₀ (by norm_num [beepStartMeters])]
      norm_num [beepStartMeters] at h ⊢
      linarith
    linarith
  exact max_eq_left (le_trans (min_le_right 1 _) h1)

/-- Witness data: a turn step ending at `demoEnd` and an active session on
it with no alerts fired yet. -/
noncomputable def demoTurnStep : RouteStep :=
  { distanceValue := 150
    durationValue := 60
    start_location := { lat := 37, lng := -121 }
    end_location := demoEnd
    html_instructions := "Turn left onto B St"
    maneuver := some ("turn-left") }

noncomputable def demoTurnState : NavState :=
  { routeSteps := [demoTurnStep]
    currentStepIndex := 0
    isActive := true
    isRouteLoaded := true
    alertsShown := fun _ => { alert100Feet := false, alert20Feet := false }
    lastBeepTime := 0 }

/-- C7: on an active session whose current step is a turn step, the far
(100 ft) speech alert can appear among the audio calls of an update only
when the distance in feet to the step end is at or below 100 and strictly
above 20 (so it can never fire inside the near band), and the near (20 ft)
alert is issued whenever the distance in feet is at or below 20 and its
per-step flag has not yet been set. -/
theorem turn_alert_threshold_bands (now : ℤ) (s : NavState) (loc : Location)
    (hact : s.isActive = true)
    (hidx : s.currentStepIndex < s.routeSteps.length)
    (hturn : isTurnStep (s.routeSteps.get ⟨s.currentStepIndex, hidx⟩) = true) :
    (∀ dir : String,
      NavEvent.alert AlertKind.far s.currentStepIndex dir ∈ (updateNavigation now s loc).2.2 →
        metersToFeet (calculateDistance loc.lat loc.lng
            (s.routeSteps.get ⟨s.currentStepIndex, hidx⟩).end_location.lat
            (s.routeSteps.get ⟨s.currentStepIndex, hidx⟩).end_location.lng) ≤ turnAlert100Feet
          ∧ turnAlert20Feet < metersToFeet (calculateDistance loc.lat loc.lng
            (s.routeSteps.get ⟨s.currentStepIndex, hidx⟩).end_location.lat
            (s.routeSteps.get ⟨s.currentStepIndex, hidx⟩).end_location.lng))
    ∧ (metersToFeet (calculateDistance loc.lat loc.lng
          (s.routeSteps.get ⟨s.currentStepIndex, hidx⟩).end_location.lat
          (s.routeSteps.get ⟨s.currentStepIndex, hidx⟩).end_location.lng) ≤ turnAlert20Feet →
        (s.alertsShown s.currentStepIndex).alert20Feet = false →
        NavEvent.alert AlertKind.near s.currentStepIndex
            (getTurnDirection (s.routeSteps.get ⟨s.currentStepIndex, hidx⟩))
          ∈ (updateNavigation now s loc).2.2) := by
  have hev := upd_events_eq_cta now s loc (status_active_of s loc hact hidx)
  constructor
  · intro dir hmem
    rw [hev] at hmem
    exact cta_far_band now s loc dir hidx hmem
  · intro hfeet hflag
    rw [hev]
    exact cta_near_fires now s loc hidx hturn hfeet hflag

/-- Witness for C7: a fix at the end of the demo turn step (distance 0,
hence at or below 20 feet, with the flag still clear) makes the update
issue the near alert. -/
theorem turn_alert_threshold_bands_witness :
    NavEvent.alert AlertKind.near 0 ("left")
      ∈ (updateNavigation 0 demoTurnState demoEnd).2.2 := by
  have hidx : demoTurnState.currentStepIndex < demoTurnState.routeSteps.length := by
    simp [demoTurnState]
  have h := (turn_alert_threshold_bands 0 demoTurnState demoEnd rfl hidx
      (by
        show isTurnStep demoTurnStep = true
        decide)).2
    (by
      show metersToFeet (calculateDistance demoEnd.lat demoEnd.lng demoEnd.lat demoEnd.lng)
        ≤ turnAlert20Feet
      rw [calculateDistance_self]
      norm_num [metersToFeet, turnAlert20Feet])
    rfl
  exact h

/-- Counterexample data: a non-turn (straight) step and an active session
on it. -/
noncomputable def straightStep : RouteStep :=
  { distanceValue := 150
    durationValue := 60
    start_location := { lat := 37, lng := -121 }
    end_location := demoEnd
    html_instructions := "Head north on Main St"
    maneuver := some ("straight") }

noncomputable def straightState : NavState :=
  { routeSteps := [straightStep]
    currentStepIndex := 0
    isActive := true
    isRouteLoaded := true
    alertsShown := fun _ => { alert100Feet := false, alert20Feet := false }
    lastBeepTime := 0 }

/-- Counterexample for C6: on a non-turn step the source never beeps; here
the fix is at distance 0 (inside the 200 m band) and the 2 s cadence is
long satisfied, yet the update issues no audio call at all, contradicting
"for every step (turn or not) ... each update emits a proximity tone". -/
theorem beep_missing_on_nonturn_step :
    isTurnStep straightStep = false
      ∧ calculateDistance demoEnd.lat demoEnd.lng
          straightStep.end_location.lat straightStep.end_location.lng = 0
      ∧ beepPeriodMs ≤ (10000 : ℤ) - straightState.lastBeepTime
      ∧ (updateNavigation 10000 straightState demoEnd).2.2 = [] := by
  have hidx : straightState.currentStepIndex < straightState.routeSteps.length := by
    simp [straightState]
  refine ⟨by decide, calculateDistance_self demoEnd.lat demoEnd.lng,
    by norm_num [beepPeriodMs, straightState], ?_⟩
  rw [upd_events_eq_cta 10000 straightState demoEnd
    (status_active_of straightState demoEnd rfl hidx)]
  rw [cta_nonturn 10000 straightState demoEnd hidx
    (by
      show ¬ isTurnStep straightStep = true
      decide)]

/-- C6 (amended): the continuous proximity tone is restricted to turn
steps.  On an active session whose current step is a turn step, once the
distance to the step end is at or below 200 m and at least 2 s have
passed since the last beep, the update emits the tone with volume
`clamp(1 - d/200, 0, 1)`; no tone is ever emitted more often than the 2 s
cadence, nor on a non-turn step; a beep records its timestamp for the
rate limit; and the clamped volume is monotonically non-increasing in the
distance, bounded to [0, 1], and exactly 0 at or beyond 200 m. -/
theorem proximity_beep_behavior (now : ℤ) (s : NavState) (loc : Location)
    (hidx : s.currentStepIndex < s.routeSteps.length) :
    (s.isActive = true →
      isTurnStep (s.routeSteps.get ⟨s.currentStepIndex, hidx⟩) = true →
      calculateDistance loc.lat loc.lng
          (s.routeSteps.get ⟨s.currentStepIndex, hidx⟩).end_location.lat
          (s.routeSteps.get ⟨s.currentStepIndex, hidx⟩).end_location.lng ≤ beepStartMeters →
      beepPeriodMs ≤ now - s.lastBeepTime →
      NavEvent.beep (clampVolume (1 - calculateDistance loc.lat loc.lng
          (s.routeSteps.get ⟨s.currentStepIndex, hidx⟩).end_location.lat
          (s.routeSteps.get ⟨s.currentStepIndex, hidx⟩).end_location.lng / beepStartMeters))
        ∈ (updateNavigation now s loc).2.2)
    ∧ (now - s.lastBeepTime < beepPeriodMs →
        ∀ v, NavEvent.beep v ∉ (updateNavigation now s loc).2.2)
    ∧ (¬ isTurnStep (s.routeSteps.get ⟨s.currentStepIndex, hidx⟩) = true →
        ∀ v, NavEvent.beep v ∉ (updateNavigation now s loc).2.2)
    ∧ (∀ v, NavEvent.beep v ∈ (checkTurnAlerts now s loc).2
        → (checkTurnAlerts now s loc).1.lastBeepTime = now)
    ∧ (∀ d1 d2 : ℝ, d1 ≤ d2 →
        clampVolume (1 - d2 / beepStartMeters) ≤ clampVolume (1 - d1 / beepStartMeters))
    ∧ (∀ v : ℝ, 0 ≤ clampVolume v ∧ clampVolume v ≤ 1)
    ∧ (∀ d : ℝ, beepStartMeters ≤ d → clampVolume (1 - d / beepStartMeters) = 0) := by
  refine ⟨?_, ?_, ?_, cta_beep_sets_time now s loc, clampVolume_anti,
    fun v => ⟨clampVolume_nonneg v, clampVolume_le_one v⟩, clampVolume_zero_far⟩
  · intro hact hturn hd ht
    rw [upd_events_eq_cta now s loc (status_active_of s loc hact hidx)]
    exact cta_beep_fires now s loc hidx hturn hd ht
  · intro ht v
    by_cases hA : (getNavigationStatus s loc).isActive = true
    · rw [upd_events_eq_cta now s loc hA]
      exact cta_no_beep_rate_limited now s loc ht v
    · rw [upd_events_nil_inactive now s loc hA]
      simp
  · intro hnt v
    by_cases hA : (getNavigationStatus s loc).isActive = true
    · rw [upd_events_eq_cta now s loc hA]
      rw [cta_nonturn now s loc hidx hnt]
      simp
    · rw [upd_events_nil_inactive now s loc hA]
      simp

/-- Witness for the amended C6: on the demo turn step with the fix at the
step end (distance 0) and an expired cadence, the update emits the beep
with the clamped volume; and the clamped volume is 0 at 250 m. -/
theorem proximity_beep_behavior_witness :
    NavEvent.beep (clampVolume (1 - calculateDistance demoEnd.lat demoEnd.lng
          demoEnd.lat demoEnd.lng / beepStartMeters))
        ∈ (updateNavigation 5000 demoTurnState demoEnd).2.2
      ∧ clampVolume (1 - 250 / beepStartMeters) = 0 := by
  have hidx : demoTurnState.currentStepIndex < demoTurnState.routeSteps.length := by
    simp [demoTurnState]
  constructor
  · have h := (proximity_beep_behavior 5000 demoTurnState demoEnd hidx).1 rfl
      (by
        show isTurnStep demoTurnStep = true
        decide)
      (by
        show calculateDistance demoEnd.lat demoEnd.lng demoEnd.lat demoEnd.lng
          ≤ beepStartMeters
        rw [calculateDistance_self]
        norm_num [beepStartMeters])
      (by norm_num [beepPeriodMs, demoTurnState])
    exact h
  · exact (proximity_beep_behavior 5000 demoTurnState demoEnd hidx).2.2.2.2.2.2 250
      (by norm_num [beepStartMeters])

end MentraMaps
